import Mathlib

/-!
Shallow embedding of cita-cli's `cita-tool/src/client.rs` (the JSON-RPC
request dispatcher `Client` and its transaction assembly pipeline).

Network I/O is modelled by an oracle `Network` mapping an HTTP request to
the parsed response it would produce (`none` = transport failure or a
response body that fails JSON parsing; both abort the batch in the source
via `.unwrap()`). Operations return, besides their value and the updated
client state, the list of HTTP requests actually executed on the wire
(futures that are built but never driven by `core.run` do not appear).
Panics (`unwrap` on `None`/`Err`) are modelled as an aborting outcome.
-/

/-- Modelled from the spec: `ParamsValue` of the `rpctypes` module (not under
`src/`): a small tagged-union value type (integer, string, list, nested map);
the integer carries a 64-bit unsigned value. -/
inductive ParamsValue where
  | int : Nat → ParamsValue
  | str : String → ParamsValue
  | list : List ParamsValue → ParamsValue
  | map : List (String × ParamsValue) → ParamsValue
deriving Repr

/-- Modelled from the spec: `JsonRpcParams` of the `rpctypes` module (not under
`src/`): an ordered mapping from string keys to `ParamsValue`. -/
def JsonRpcParams : Type := List (String × ParamsValue)

/-- Modelled from the spec: `JsonRpcParams::new()` starts a fresh ordered
mapping (protocol-version entry). -/
def JsonRpcParams.new : JsonRpcParams := [("jsonrpc", ParamsValue.str "2.0")]

/-- Modelled from the spec: inserting a key into the ordered mapping replaces
an existing binding in place, else appends. -/
def JsonRpcParams.insert : JsonRpcParams → String → ParamsValue → JsonRpcParams
  | [], k, v => [(k, v)]
  | (k', v') :: rest, k, v =>
      if k' = k then (k, v) :: rest
      else (k', v') :: JsonRpcParams.insert rest k v

/-- Association-list lookup used to read a field of a result map
(`HashMap::remove` in the source reads the binding out of the map; only the
returned value is used afterwards). -/
def lookupAssoc : List (String × ParamsValue) → String → Option ParamsValue
  | [], _ => none
  | (k', v') :: rest, k => if k' = k then some v' else lookupAssoc rest k

/-- Modelled from the spec: the success payload of a response is a
Params-shaped value; `get_chain_id` only distinguishes the map shape. -/
inductive ResponseValue where
  | map : List (String × ParamsValue) → ResponseValue
  | singe : ParamsValue → ResponseValue
deriving Repr

/-- Modelled from the spec: `JsonRpcResponse` of the `rpctypes` module (not
under `src/`): either a success result or an error (code and message). -/
structure JsonRpcResponse where
  result : Option ResponseValue
  error : Option (Nat × String)
deriving Repr

/-- One outbound POST: target endpoint and the JSON body (kept structured;
`serde_json::to_string` is injective on this data so nothing is lost). -/
structure HttpRequest where
  url : String
  body : JsonRpcParams

/-- The network oracle: what each HTTP request would return. `none` models a
transport failure or an unparseable body (both `.unwrap()`-fatal). -/
def Network : Type := HttpRequest → Option JsonRpcResponse

/-- `Client` state (`client.rs` lines 16-22); the `core` event-loop handle
carries no semantic state and is omitted. `id` is the `u64` request counter,
`chain_id` the optional cached `u32` chain identifier. -/
structure Client where
  id : Nat
  url : List String
  chain_id : Option Nat

/-- `Client::new` (lines 26-34). -/
def Client.new : Client := { id := 0, url := [], chain_id := none }

/-- `Client::add_url` (lines 37-40). -/
def Client.add_url (c : Client) (u : String) : Client :=
  { c with url := c.url ++ [u] }

/-- String constant `CITA_BLOCK_BUMBER` (line 12, sic). -/
def CITA_BLOCK_BUMBER : String := "cita_blockNumber"

/-- String constant `CITA_GET_META_DATA` (line 13). -/
def CITA_GET_META_DATA : String := "cita_getMetaData"

/-- Outcome of `send_request`: `ok` is `Ok(responses)`, `unsupported` is the
`Err(())` the source returns for a method outside the allow-list, `panic`
models an `unwrap` abort on transport/parse failure inside `run`. -/
inductive SendOutcome where
  | ok : List JsonRpcResponse → SendOutcome
  | unsupported : SendOutcome
  | panic : SendOutcome
deriving Repr

/-- Result of `send_request`: the outcome, the updated client, and the trace
of HTTP requests that were actually executed. -/
structure SendResult where
  outcome : SendOutcome
  client : Client
  trace : List HttpRequest

/-- `Client::make_requests_with_all_url` (lines 60-75): one request per
configured endpoint, in registration order, all carrying the same body.
This only constructs the (lazy) futures; no network activity happens here. -/
def make_requests_with_all_url (c : Client) (params : JsonRpcParams) :
    List HttpRequest :=
  c.url.map (fun u => { url := u, body := params })

/-- `Client::run` (lines 163-172): drive all request futures to completion
and parse each body; any transport or parse failure aborts the whole batch
(`unwrap`). Responses come back in the order the requests were built. -/
def Client.run (net : Network) : List HttpRequest → Option (List JsonRpcResponse)
  | [] => some []
  | r :: rest =>
      match net r with
      | none => none
      | some resp =>
          match Client.run net rest with
          | none => none
          | some resps => some (resp :: resps)

/-- `Client::send_request` (lines 43-58): bump the id counter with 64-bit
wraparound, embed it in the params, build one request per endpoint, then
dispatch on the method allow-list; a method outside the list returns
`Err(())` and the built futures are dropped undriven (empty trace). -/
def send_request (net : Network) (c : Client) (method : String)
    (params : JsonRpcParams) : SendResult :=
  let newId := (c.id + 1) % 2 ^ 64
  let c' : Client := { c with id := newId }
  let params' := params.insert "id" (ParamsValue.int newId)
  let reqs := make_requests_with_all_url c' params'
  if method = CITA_BLOCK_BUMBER ∨ method = CITA_GET_META_DATA then
    match Client.run net reqs with
    | some resps => { outcome := SendOutcome.ok resps, client := c', trace := reqs }
    | none => { outcome := SendOutcome.panic, client := c', trace := reqs }
  else
    { outcome := SendOutcome.unsupported, client := c', trace := [] }

/-- The params record `get_chain_id` builds before its `send_request`
(lines 133-141). -/
def metaParams : JsonRpcParams :=
  (JsonRpcParams.new.insert "params"
      (ParamsValue.list [ParamsValue.str "latest"])).insert "method"
    (ParamsValue.str "cita_getMetaData")

/-- `Client::get_chain_id` (lines 129-160). If the chain id is cached,
return it with no network activity. Otherwise `send_request` the metadata
query, `pop()` the LAST response off the vector (`unwrap`-panic if the
vector is empty or the send returned `Err`), and inspect its result: a map
whose `chainId` binding is an integer is truncated to `u32`, cached and
returned; a map without a `chainId` binding panics (`remove(..).unwrap()`);
any other shape returns the sentinel 0 without caching. The first component
is `none` exactly when the source panics. -/
def get_chain_id (net : Network) (c : Client) :
    Option (Nat × Client) × List HttpRequest :=
  match c.chain_id with
  | some cid => (some (cid, c), [])
  | none =>
      let s := send_request net c "cita_getMetaData" metaParams
      match s.outcome with
      | SendOutcome.ok resps =>
          match resps.getLast? with
          | none => (none, s.trace)
          | some r =>
              match r.result with
              | some (ResponseValue.map m) =>
                  match lookupAssoc m "chainId" with
                  | none => (none, s.trace)
                  | some (ParamsValue.int k) =>
                      let cid := k % 2 ^ 32
                      (some (cid, { s.client with chain_id := some cid }), s.trace)
                  | some _ => (some (0, s.client), s.trace)
              | _ => (some (0, s.client), s.trace)
      | _ => (none, s.trace)

/-- Hex value of one character, as the `hex` crate accepts it
(case-insensitive); `none` for a non-hex character. -/
def hexDigitVal (ch : Char) : Option Nat :=
  if '0' ≤ ch ∧ ch ≤ '9' then some (ch.toNat - '0'.toNat)
  else if 'a' ≤ ch ∧ ch ≤ 'f' then some (ch.toNat - 'a'.toNat + 10)
  else if 'A' ≤ ch ∧ ch ≤ 'F' then some (ch.toNat - 'A'.toNat + 10)
  else none

/-- `hex::decode` on a character list: pairs of hex digits to bytes; fails
on a non-hex character or odd length. -/
def hexDecodeList : List Char → Option (List Nat)
  | [] => some []
  | [_] => none
  | c1 :: c2 :: rest =>
      match hexDigitVal c1, hexDigitVal c2, hexDecodeList rest with
      | some h, some l, some bs => some ((h * 16 + l) :: bs)
      | _, _, _ => none

/-- `hex::decode` (the `decode` import, line 8). -/
def hexDecode (s : String) : Option (List Nat) :=
  hexDecodeList s.data

/-- Lowercase hex digit for a value below 16. -/
def hexDigitChar (n : Nat) : Char :=
  if n < 10 then Char.ofNat ('0'.toNat + n)
  else Char.ofNat ('a'.toNat + (n - 10))

/-- `hex::encode` of one byte: two lowercase hex digits. -/
def byteToHex (b : Nat) : List Char :=
  [hexDigitChar (b / 16), hexDigitChar (b % 16)]

/-- `hex::encode` (the `encode` import, line 8). -/
def hexEncode (bs : List Nat) : String :=
  { data := (bs.map byteToHex).flatten }

/-- Overwrite the element at an index of a list (helper for the RFC 4122
version/variant stamping below). -/
def setByte : List Nat → Nat → (Nat → Nat) → List Nat
  | [], _, _ => []
  | b :: rest, 0, f => f b :: rest
  | b :: rest, i + 1, f => b :: setByte rest i f

/-- `Uuid::new_v4().as_bytes()`: 16 bytes of randomness (the `rng` input)
with the RFC 4122 version nibble of byte 6 forced to 4 and the variant bits
of byte 8 forced to 10. -/
def uuidV4Bytes (rng : List Nat) : List Nat :=
  setByte (setByte rng 6 (fun b => b % 16 + 64)) 8 (fun b => b % 64 + 128)

/-- Modelled from the spec: the private key consumed by the signing
boundary, an opaque fixed-size byte sequence. -/
structure PrivKey where
  bytes : List Nat

/-- `UnsignedTransaction` record as assembled by `generate_transaction`
(fields set in lines 113-120); the byte-level protobuf schema is external. -/
structure Transaction where
  data : List Nat
  to_addr : String
  nonce : String
  valid_until_block : Nat
  quota : Nat
  chain_id : Nat
deriving Repr

/-- Modelled from the spec: the signing boundary
(`tx.sign(*pv).take_transaction_with_sig().write_to_bytes()`), a fixed
external contract producing the final binary form of the signed record. -/
structure SigScheme where
  sign : Transaction → PrivKey → List Nat

/-- Failure modes of `generate_transaction`, per the spec's error taxonomy:
`malformedInput` is the `decode(code).unwrap()` panic on invalid hex,
`resolvePanic` an `unwrap` panic inside `get_chain_id`. -/
inductive TxError where
  | malformedInput : TxError
  | resolvePanic : TxError
deriving Repr

/-- `Client::generate_transaction` (lines 103-127). Decode the payload hex
(panic on malformed input, before anything else). Build the transaction:
data, destination, a nonce from a fresh v4 UUID, `current_height + 88`,
quota 1000000, and the chain id. NOTE the source line 120 is
`chain_id.unwrap_or(self.get_chain_id())`: Rust evaluates the `unwrap_or`
argument eagerly, so `get_chain_id` runs (with its network traffic, cache
write and possible panic) even when the override is `Some`; the override
only selects which value lands in the record. Finally sign and hex-encode.
Returns the result (or the aborting error), the updated client, and the
executed network trace. -/
def generate_transaction (sig : SigScheme) (net : Network) (rng : List Nat)
    (c : Client) (code : String) (address : String) (pv : PrivKey)
    (current_height : Nat) (chain_id : Option Nat) :
    Except TxError (String × Client) × List HttpRequest :=
  match hexDecode code with
  | none => (Except.error TxError.malformedInput, [])
  | some data =>
      match get_chain_id net c with
      | (none, tr) => (Except.error TxError.resolvePanic, tr)
      | (some (fetched, c'), tr) =>
          let tx : Transaction :=
            { data := data
              to_addr := address
              nonce := hexEncode (uuidV4Bytes rng)
              valid_until_block := current_height + 88
              quota := 1000000
              chain_id := chain_id.getD fetched }
          (Except.ok (hexEncode (sig.sign tx pv), c'), tr)

/-! Concrete fixtures used to instantiate theorems at specific inputs. -/

/-- A signing scheme producing an empty signature blob (the signing boundary
is an opaque external contract, so any inhabitant exercises the pipeline). -/
def sigZero : SigScheme := { sign := fun _ _ => [] }

/-- A concrete private key value. -/
def pvZero : PrivKey := { bytes := [] }

/-- A network on which every request fails (never consulted in the
scenarios that use it). -/
def netNone : Network := fun _ => none

/-- A metadata response whose result map binds `chainId` to the given
integer. -/
def respChainId (k : Nat) : JsonRpcResponse :=
  { result := some (ResponseValue.map [("chainId", ParamsValue.int k)])
    error := none }

/-- A network on which every endpoint answers with `chainId` 5. -/
def netMeta5 : Network := fun _ => some (respChainId 5)

/-- A network where endpoint "a" answers `chainId` 1 and every other
endpoint answers `chainId` 2. -/
def netFirstLast : Network := fun r =>
  if r.url = "a" then some (respChainId 1) else some (respChainId 2)

/-- A response whose result map has no `chainId` binding. -/
def respNoChainId : JsonRpcResponse :=
  { result := some (ResponseValue.map [("other", ParamsValue.int 7)])
    error := none }

/-- A network on which every endpoint answers with a map lacking
`chainId`. -/
def netNoChainId : Network := fun _ => some respNoChainId

/-- A response with no result at all. -/
def respEmptyResult : JsonRpcResponse := { result := none, error := none }

/-- A network on which every endpoint answers with an empty result. -/
def netEmptyResult : Network := fun _ => some respEmptyResult

/-- 16 zero bytes of randomness. -/
def rngA : List Nat := List.replicate 16 0

/-- 16 bytes of randomness, all 17. -/
def rngB : List Nat := List.replicate 16 17

/-! Helper lemmas about the embedded operations. -/

lemma lookupAssoc_insert (p : JsonRpcParams) (k : String) (v : ParamsValue) :
    lookupAssoc (JsonRpcParams.insert p k v) k = some v := by
  induction p with
  | nil => simp [JsonRpcParams.insert, lookupAssoc]
  | cons hd tl ih =>
      obtain ⟨k', v'⟩ := hd
      by_cases h : k' = k
      · simp [JsonRpcParams.insert, h, lookupAssoc]
      · simp [JsonRpcParams.insert, h, lookupAssoc, ih]

lemma send_request_client_eq (net : Network) (c : Client) (m : String)
    (p : JsonRpcParams) :
    (send_request net c m p).client = { c with id := (c.id + 1) % 2 ^ 64 } := by
  unfold send_request
  dsimp only
  split
  · split <;> rfl
  · rfl

lemma send_request_trace_body (net : Network) (c : Client) (m : String)
    (p : JsonRpcParams) :
    ∀ req ∈ (send_request net c m p).trace,
      req.body = p.insert "id" (ParamsValue.int ((c.id + 1) % 2 ^ 64)) := by
  unfold send_request
  dsimp only
  split
  · split <;>
    · intro req hreq
      simp only [make_requests_with_all_url, List.mem_map] at hreq
      obtain ⟨u, _, rfl⟩ := hreq
      rfl
  · intro req hreq
    simp at hreq

lemma run_some_spec (net : Network) :
    ∀ reqs rs, Client.run net reqs = some rs →
      rs.length = reqs.length ∧ ∀ pr ∈ reqs.zip rs, net pr.1 = some pr.2 := by
  intro reqs
  induction reqs with
  | nil =>
      intro rs h
      simp only [Client.run, Option.some.injEq] at h
      subst h
      simp
  | cons r rest ih =>
      intro rs h
      simp only [Client.run] at h
      cases hn : net r with
      | none => rw [hn] at h; exact absurd h (by simp)
      | some resp =>
          rw [hn] at h
          cases hrest : Client.run net rest with
          | none => rw [hrest] at h; exact absurd h (by simp)
          | some resps =>
              rw [hrest] at h
              simp only [Option.some.injEq] at h
              subst h
              obtain ⟨hlen, hall⟩ := ih resps hrest
              refine ⟨by simp [hlen], ?_⟩
              intro pr hpr
              simp only [List.zip_cons_cons, List.mem_cons] at hpr
              rcases hpr with hpr | hpr
              · subst hpr; exact hn
              · exact hall pr hpr

lemma get_chain_id_cached_eq (net : Network) (c : Client) (cid : Nat)
    (h : c.chain_id = some cid) :
    get_chain_id net c = (some (cid, c), []) := by
  unfold get_chain_id
  rw [h]

lemma hexDigitVal_hexDigitChar : ∀ n < 16, hexDigitVal (hexDigitChar n) = some n := by
  decide

lemma hexDecodeList_encode (bs : List Nat) (h : ∀ b ∈ bs, b < 256) :
    hexDecodeList ((bs.map byteToHex).flatten) = some bs := by
  induction bs with
  | nil => rfl
  | cons b rest ih =>
      have hb : b < 256 := h b (by simp)
      have h1 : b / 16 < 16 := by omega
      have h2 : b % 16 < 16 := by omega
      have hrest : hexDecodeList ((rest.map byteToHex).flatten) = some rest :=
        ih (fun x hx => h x (by simp [hx]))
      simp only [List.map_cons, List.flatten_cons, byteToHex, List.append_eq,
        List.cons_append, List.nil_append, hexDecodeList,
        hexDigitVal_hexDigitChar _ h1, hexDigitVal_hexDigitChar _ h2, hrest]
      have : b / 16 * 16 + b % 16 = b := by omega
      rw [this]

lemma hexEncode_inj (bs1 bs2 : List Nat) (h1 : ∀ b ∈ bs1, b < 256)
    (h2 : ∀ b ∈ bs2, b < 256) (he : hexEncode bs1 = hexEncode bs2) :
    bs1 = bs2 := by
  have hd : (bs1.map byteToHex).flatten = (bs2.map byteToHex).flatten :=
    congrArg String.data he
  have e1 := hexDecodeList_encode bs1 h1
  have e2 := hexDecodeList_encode bs2 h2
  rw [hd, e2] at e1
  exact (Option.some.injEq _ _).mp e1.symm

lemma hexEncode_length (bs : List Nat) : (hexEncode bs).length = 2 * bs.length := by
  show ((bs.map byteToHex).flatten).length = 2 * bs.length
  induction bs with
  | nil => rfl
  | cons b rest ih =>
      simp only [List.map_cons, List.flatten_cons, List.length_append,
        List.length_cons, byteToHex, List.length_nil] at *
      omega

lemma setByte_length (bs : List Nat) (i : Nat) (f : Nat → Nat) :
    (setByte bs i f).length = bs.length := by
  induction bs generalizing i with
  | nil => rfl
  | cons b rest ih =>
      cases i with
      | zero => rfl
      | succ j => simp [setByte, ih]

lemma setByte_lt (bs : List Nat) (i : Nat) (f : Nat → Nat)
    (hb : ∀ b ∈ bs, b < 256) (hf : ∀ b, f b < 256) :
    ∀ b ∈ setByte bs i f, b < 256 := by
  induction bs generalizing i with
  | nil => intro b hbmem; simp [setByte] at hbmem
  | cons x rest ih =>
      cases i with
      | zero =>
          intro b hbmem
          simp only [setByte, List.mem_cons] at hbmem
          rcases hbmem with rfl | hbmem
          · exact hf x
          · exact hb b (by simp [hbmem])
      | succ j =>
          intro b hbmem
          simp only [setByte, List.mem_cons] at hbmem
          rcases hbmem with rfl | hbmem
          · exact hb b (by simp)
          · exact ih j (fun y hy => hb y (by simp [hy])) b hbmem

lemma uuidV4Bytes_lt (rng : List Nat) (h : ∀ b ∈ rng, b < 256) :
    ∀ b ∈ uuidV4Bytes rng, b < 256 := by
  refine setByte_lt _ _ _ (setByte_lt _ _ _ h ?_) ?_ <;> intro b <;> omega

lemma uuidV4Bytes_length (rng : List Nat) :
    (uuidV4Bytes rng).length = rng.length := by
  simp [uuidV4Bytes, setByte_length]

lemma send_request_reject (net : Network) (c : Client) (method : String)
    (params : JsonRpcParams) (h1 : method ≠ CITA_BLOCK_BUMBER)
    (h2 : method ≠ CITA_GET_META_DATA) :
    send_request net c method params =
      { outcome := SendOutcome.unsupported,
        client := { c with id := (c.id + 1) % 2 ^ 64 }, trace := [] } := by
  unfold send_request
  dsimp only
  rw [if_neg]
  rintro (h | h)
  exacts [h1 h, h2 h]

/-- Claim C4: for every method name outside the allow-list
(cita_blockNumber, cita_getMetaData) and every params value, send_request
returns the UnsupportedMethod error (the source's Err(())) and executes zero
network calls: no request reaches any endpoint. -/
theorem send_request_unsupported_no_network (net : Network) (c : Client)
    (method : String) (params : JsonRpcParams)
    (h1 : method ≠ CITA_BLOCK_BUMBER) (h2 : method ≠ CITA_GET_META_DATA) :
    (send_request net c method params).outcome = SendOutcome.unsupported ∧
    (send_request net c method params).trace = [] := by
  rw [send_request_reject net c method params h1 h2]
  exact ⟨rfl, rfl⟩

/-- Witness for C4 at the concrete method "foo". -/
theorem send_request_unsupported_no_network_witness :
    (send_request netNone Client.new "foo" JsonRpcParams.new).outcome =
      SendOutcome.unsupported ∧
    (send_request netNone Client.new "foo" JsonRpcParams.new).trace = [] :=
  send_request_unsupported_no_network netNone Client.new "foo" JsonRpcParams.new
    (by decide) (by decide)

/-- Claim C5: once the chain-id cache is Some, get_chain_id returns the
cached value with no network activity and leaves the client (hence the
cache) unchanged; thus after the first successful resolution no further
chain-metadata round trips ever happen on this client. -/
theorem get_chain_id_cached_pure (net : Network) (c : Client) (cid : Nat)
    (h : c.chain_id = some cid) :
    get_chain_id net c = (some (cid, c), []) :=
  get_chain_id_cached_eq net c cid h

/-- Witness for C5 at a concrete client with cached chain id 7. -/
theorem get_chain_id_cached_pure_witness :
    get_chain_id netNone { id := 0, url := ["u"], chain_id := some 7 } =
      (some (7, { id := 0, url := ["u"], chain_id := some 7 }), []) :=
  get_chain_id_cached_pure netNone { id := 0, url := ["u"], chain_id := some 7 }
    7 rfl

/-- Claim C6: every send_request embeds id (previous + 1) mod 2^64 in each
executed request body and stores it as the new counter; a second call
continues with (previous + 2) mod 2^64; at the maximum u64 value the next
id wraps to 0 (the call still succeeds in producing an outcome rather than
failing). -/
theorem send_request_id_increment (net net2 : Network) (c : Client)
    (m m2 : String) (p p2 : JsonRpcParams) :
    (send_request net c m p).client.id = (c.id + 1) % 2 ^ 64 ∧
    (∀ req ∈ (send_request net c m p).trace,
      lookupAssoc req.body "id" =
        some (ParamsValue.int ((c.id + 1) % 2 ^ 64))) ∧
    (send_request net2 (send_request net c m p).client m2 p2).client.id =
      (c.id + 2) % 2 ^ 64 ∧
    (c.id = 2 ^ 64 - 1 → (send_request net c m p).client.id = 0) := by
  have hcl : (send_request net c m p).client.id = (c.id + 1) % 2 ^ 64 := by
    rw [send_request_client_eq]
  refine ⟨hcl, ?_, ?_, ?_⟩
  · intro req hreq
    rw [send_request_trace_body net c m p req hreq, lookupAssoc_insert]
  · rw [send_request_client_eq, hcl, Nat.mod_add_mod]
  · intro hmax
    rw [hcl, hmax]
    have hpow : 2 ^ 64 - 1 + 1 = 2 ^ 64 := Nat.sub_add_cancel (by norm_num)
    rw [hpow, Nat.mod_self]

/-- Witness for C6 at the maximum 64-bit counter value. -/
theorem send_request_id_increment_witness :
    (send_request netNone { id := 2 ^ 64 - 1, url := [], chain_id := none }
      "x" JsonRpcParams.new).client.id = (2 ^ 64 - 1 + 1) % 2 ^ 64 ∧
    (∀ req ∈ (send_request netNone { id := 2 ^ 64 - 1, url := [], chain_id := none }
        "x" JsonRpcParams.new).trace,
      lookupAssoc req.body "id" =
        some (ParamsValue.int ((2 ^ 64 - 1 + 1) % 2 ^ 64))) ∧
    (send_request netNone
        (send_request netNone { id := 2 ^ 64 - 1, url := [], chain_id := none }
          "x" JsonRpcParams.new).client "y" JsonRpcParams.new).client.id =
      (2 ^ 64 - 1 + 2) % 2 ^ 64 ∧
    ((2 ^ 64 - 1 : Nat) = 2 ^ 64 - 1 →
      (send_request netNone { id := 2 ^ 64 - 1, url := [], chain_id := none }
        "x" JsonRpcParams.new).client.id = 0) :=
  send_request_id_increment netNone netNone
    { id := 2 ^ 64 - 1, url := [], chain_id := none } "x" "y"
    JsonRpcParams.new JsonRpcParams.new

/-- Claim C10: a send_request rejected for an out-of-allow-list method still
increments the request-id counter by 1 mod 2^64: the error path does not
leave the dispatcher state unchanged. -/
theorem send_request_unsupported_increments_id (net : Network) (c : Client)
    (method : String) (params : JsonRpcParams)
    (h1 : method ≠ CITA_BLOCK_BUMBER) (h2 : method ≠ CITA_GET_META_DATA) :
    (send_request net c method params).outcome = SendOutcome.unsupported ∧
    (send_request net c method params).client.id = (c.id + 1) % 2 ^ 64 := by
  rw [send_request_reject net c method params h1 h2]
  exact ⟨rfl, rfl⟩

/-- Witness for C10 at the concrete method "bar" and counter 41. -/
theorem send_request_unsupported_increments_id_witness :
    (send_request netNone { id := 41, url := ["u"], chain_id := none } "bar"
      JsonRpcParams.new).outcome = SendOutcome.unsupported ∧
    (send_request netNone { id := 41, url := ["u"], chain_id := none } "bar"
      JsonRpcParams.new).client.id = (41 + 1) % 2 ^ 64 :=
  send_request_unsupported_increments_id netNone
    { id := 41, url := ["u"], chain_id := none } "bar" JsonRpcParams.new
    (by decide) (by decide)

/-- Claim C9: a successful send_request on an allow-listed method executes
exactly one call per configured endpoint, in registration order, all with
the same request body, and returns exactly one parsed response per endpoint
in that same order (the i-th response is the i-th endpoint's answer). -/
theorem send_request_fanout_order (net : Network) (c : Client) (m : String)
    (p : JsonRpcParams) (rs : List JsonRpcResponse)
    (hm : m = CITA_BLOCK_BUMBER ∨ m = CITA_GET_META_DATA)
    (hok : (send_request net c m p).outcome = SendOutcome.ok rs) :
    (send_request net c m p).trace =
      c.url.map (fun u =>
        { url := u
          body := p.insert "id" (ParamsValue.int ((c.id + 1) % 2 ^ 64)) }) ∧
    rs.length = c.url.length ∧
    ∀ pr ∈ ((send_request net c m p).trace).zip rs, net pr.1 = some pr.2 := by
  unfold send_request at hok ⊢
  dsimp only at hok ⊢
  rw [if_pos hm] at hok ⊢
  cases hrun : Client.run net (make_requests_with_all_url
      { c with id := (c.id + 1) % 2 ^ 64 }
      (p.insert "id" (ParamsValue.int ((c.id + 1) % 2 ^ 64)))) with
  | none =>
      rw [hrun] at hok
      simp at hok
  | some resps =>
      rw [hrun] at hok
      have hrs : resps = rs := by
        simpa using hok
      subst hrs
      obtain ⟨hlen, hall⟩ := run_some_spec net _ _ hrun
      dsimp only
      refine ⟨rfl, ?_, hall⟩
      simpa [make_requests_with_all_url] using hlen

/-- Witness for C9: two endpoints, metadata method, both answering. -/
theorem send_request_fanout_order_witness :
    (send_request netMeta5 { id := 0, url := ["a", "b"], chain_id := none }
        "cita_getMetaData" JsonRpcParams.new).trace =
      ["a", "b"].map (fun u =>
        { url := u
          body := JsonRpcParams.insert JsonRpcParams.new "id"
            (ParamsValue.int ((0 + 1) % 2 ^ 64)) }) ∧
    [respChainId 5, respChainId 5].length = (["a", "b"] : List String).length ∧
    ∀ pr ∈ ((send_request netMeta5 { id := 0, url := ["a", "b"], chain_id := none }
        "cita_getMetaData" JsonRpcParams.new).trace).zip
          [respChainId 5, respChainId 5],
      netMeta5 pr.1 = some pr.2 :=
  send_request_fanout_order netMeta5
    { id := 0, url := ["a", "b"], chain_id := none } "cita_getMetaData"
    JsonRpcParams.new [respChainId 5, respChainId 5] (Or.inr rfl) rfl

/-- Counterexample to claim C1: with two endpoints "a" and "b", where the
FIRST endpoint's response carries chainId 1, get_chain_id extracts 2 (the
LAST endpoint's chainId) — Vec::pop removes the last element — refuting
"extracts the chainId field from the first configured endpoint's
response". -/
theorem get_chain_id_first_endpoint_cex :
    (get_chain_id netFirstLast { id := 0, url := ["a", "b"], chain_id := none }).1 =
      some (2, { id := 1, url := ["a", "b"], chain_id := some 2 }) ∧
    netFirstLast (HttpRequest.mk "a"
        (JsonRpcParams.insert metaParams "id" (ParamsValue.int 1))) =
      some (respChainId 1) ∧
    (2 : Nat) ≠ 1 :=
  ⟨rfl, rfl, by decide⟩

/-- Claim C1 (amended): when the chain id is not cached, get_chain_id sends
the metadata request to all endpoints and extracts the chainId field from
the result map of the LAST configured endpoint's response (Vec::pop), for
every endpoint list with at least one endpoint and every response batch;
the value is truncated to 32 bits and cached. -/
theorem get_chain_id_takes_last_response (net : Network) (c : Client)
    (rs : List JsonRpcResponse) (r : JsonRpcResponse)
    (m : List (String × ParamsValue)) (k : Nat)
    (hc : c.chain_id = none)
    (hs : (send_request net c "cita_getMetaData" metaParams).outcome =
      SendOutcome.ok rs)
    (hl : rs.getLast? = some r)
    (hr : r.result = some (ResponseValue.map m))
    (hk : lookupAssoc m "chainId" = some (ParamsValue.int k)) :
    get_chain_id net c =
      (some (k % 2 ^ 32,
        { (send_request net c "cita_getMetaData" metaParams).client with
            chain_id := some (k % 2 ^ 32) }),
       (send_request net c "cita_getMetaData" metaParams).trace) := by
  unfold get_chain_id
  rw [hc]
  dsimp only
  rw [hs]
  dsimp only
  rw [hl]
  dsimp only
  rw [hr]
  dsimp only
  rw [hk]

/-- Witness for the amended C1 at two concrete endpoints. -/
theorem get_chain_id_takes_last_response_witness :
    get_chain_id netFirstLast { id := 5, url := ["a", "b"], chain_id := none } =
      (some (2 % 2 ^ 32,
        { (send_request netFirstLast { id := 5, url := ["a", "b"], chain_id := none }
            "cita_getMetaData" metaParams).client with
            chain_id := some (2 % 2 ^ 32) }),
       (send_request netFirstLast { id := 5, url := ["a", "b"], chain_id := none }
         "cita_getMetaData" metaParams).trace) :=
  get_chain_id_takes_last_response netFirstLast
    { id := 5, url := ["a", "b"], chain_id := none }
    [respChainId 1, respChainId 2] (respChainId 2)
    [("chainId", ParamsValue.int 2)] 2 rfl rfl rfl rfl rfl

/-- Counterexample to claim C3: a response whose result is a map WITHOUT a
chainId binding does not make get_chain_id return 0 — the source panics on
remove("chainId").unwrap() (modelled as the aborting outcome none). -/
theorem get_chain_id_missing_field_cex :
    (get_chain_id netNoChainId { id := 0, url := ["u"], chain_id := none }).1 =
      none ∧
    respNoChainId.result =
      some (ResponseValue.map [("other", ParamsValue.int 7)]) ∧
    lookupAssoc [("other", ParamsValue.int 7)] "chainId" = none :=
  ⟨rfl, rfl, rfl⟩

/-- Claim C3 (amended): for the last response of the batch, get_chain_id
returns the sentinel 0 (without caching, without failing) when the result
is not a map, and likewise when the result map's chainId binding is not an
integer; but when the result is a map with NO chainId binding at all, the
source panics (remove(..).unwrap()) instead of returning 0. -/
theorem get_chain_id_lenient_fallback (net : Network) (c : Client)
    (rs : List JsonRpcResponse) (r : JsonRpcResponse)
    (hc : c.chain_id = none)
    (hs : (send_request net c "cita_getMetaData" metaParams).outcome =
      SendOutcome.ok rs)
    (hl : rs.getLast? = some r) :
    ((∀ m, r.result ≠ some (ResponseValue.map m)) →
      get_chain_id net c =
        (some (0, (send_request net c "cita_getMetaData" metaParams).client),
         (send_request net c "cita_getMetaData" metaParams).trace)) ∧
    (∀ m, r.result = some (ResponseValue.map m) →
      ∀ v, lookupAssoc m "chainId" = some v →
      (∀ k, v ≠ ParamsValue.int k) →
      get_chain_id net c =
        (some (0, (send_request net c "cita_getMetaData" metaParams).client),
         (send_request net c "cita_getMetaData" metaParams).trace)) ∧
    (∀ m, r.result = some (ResponseValue.map m) →
      lookupAssoc m "chainId" = none →
      (get_chain_id net c).1 = none) := by
  refine ⟨?_, ?_, ?_⟩
  · intro hnm
    unfold get_chain_id
    rw [hc]
    dsimp only
    rw [hs]
    dsimp only
    rw [hl]
    dsimp only
    cases hres : r.result with
    | none => rfl
    | some rv =>
        cases rv with
        | map m => exact absurd hres (hnm m)
        | singe v => rfl
  · intro m hres v hv hni
    unfold get_chain_id
    rw [hc]
    dsimp only
    rw [hs]
    dsimp only
    rw [hl]
    dsimp only
    rw [hres]
    dsimp only
    rw [hv]
    cases v with
    | int k => exact absurd rfl (hni k)
    | str s => rfl
    | list l => rfl
    | map mm => rfl
  · intro m hres hnone
    unfold get_chain_id
    rw [hc]
    dsimp only
    rw [hs]
    dsimp only
    rw [hl]
    dsimp only
    rw [hres]
    dsimp only
    rw [hnone]

/-- Witness for the amended C3: a concrete batch whose last result is not a
map yields the sentinel 0. -/
theorem get_chain_id_lenient_fallback_witness :
    get_chain_id netEmptyResult { id := 0, url := ["u"], chain_id := none } =
      (some (0,
        (send_request netEmptyResult { id := 0, url := ["u"], chain_id := none }
          "cita_getMetaData" metaParams).client),
       (send_request netEmptyResult { id := 0, url := ["u"], chain_id := none }
         "cita_getMetaData" metaParams).trace) :=
  (get_chain_id_lenient_fallback netEmptyResult
      { id := 0, url := ["u"], chain_id := none } [respEmptyResult]
      respEmptyResult rfl rfl rfl).1
    (by intro m h; simp [respEmptyResult] at h)

/-- Counterexample to claim C2: with the chain-id cache empty and the
override Some 1, generate_transaction still performed one network call
(trace length 1) and still mutated the dispatcher's chain-id cache (to the
fetched 5) — refuting "resolve_chain_id is not called, so no network
activity and no mutation of the chain-id cache occurs". -/
theorem generate_transaction_override_effects_cex :
    (generate_transaction sigZero netMeta5 rngA
        { id := 0, url := ["n1"], chain_id := none } "60" "" pvZero 100
        (some 1)).2.length = 1 ∧
    (generate_transaction sigZero netMeta5 rngA
        { id := 0, url := ["n1"], chain_id := none } "60" "" pvZero 100
        (some 1)).1 =
      Except.ok ("", { id := 1, url := ["n1"], chain_id := some 5 }) :=
  ⟨rfl, rfl⟩

/-- Claim C2 (amended): when the override is Some v, the transaction's
chain id is taken from the override (v is stored in the record that gets
signed); but get_chain_id is still evaluated — Rust's unwrap_or takes its
argument eagerly — so its network activity and cache mutation happen
regardless: the resulting client and trace are exactly those produced by
get_chain_id. -/
theorem generate_transaction_override_value (sig : SigScheme) (net : Network)
    (rng : List Nat) (c : Client) (code address : String) (pv : PrivKey)
    (h v res : Nat) (data : List Nat) (c' : Client) (tr : List HttpRequest)
    (hcode : hexDecode code = some data)
    (hg : get_chain_id net c = (some (res, c'), tr)) :
    generate_transaction sig net rng c code address pv h (some v) =
      (Except.ok (hexEncode (sig.sign
        { data := data, to_addr := address,
          nonce := hexEncode (uuidV4Bytes rng), valid_until_block := h + 88,
          quota := 1000000, chain_id := v } pv), c'), tr) := by
  unfold generate_transaction
  rw [hcode, hg]
  rfl

/-- Witness for the amended C2 at a concrete empty-cache client. -/
theorem generate_transaction_override_value_witness :
    generate_transaction sigZero netMeta5 rngA
        { id := 0, url := ["n1"], chain_id := none } "60" "" pvZero 100
        (some 1) =
      (Except.ok (hexEncode (sigZero.sign
        { data := [96], to_addr := "",
          nonce := hexEncode (uuidV4Bytes rngA), valid_until_block := 100 + 88,
          quota := 1000000, chain_id := 1 } pvZero),
        { id := 1, url := ["n1"], chain_id := some 5 }),
       [HttpRequest.mk "n1"
         (JsonRpcParams.insert metaParams "id" (ParamsValue.int 1))]) :=
  generate_transaction_override_value sigZero netMeta5 rngA
    { id := 0, url := ["n1"], chain_id := none } "60" "" pvZero 100 1 5 [96]
    { id := 1, url := ["n1"], chain_id := some 5 }
    [HttpRequest.mk "n1"
      (JsonRpcParams.insert metaParams "id" (ParamsValue.int 1))] rfl rfl

/-- Claim C7: for payload hex "6060", destination "", current height 100
and override Some 1, generate_transaction signs an UnsignedTransaction with
data 0x6060, valid_until_block 188, quota 1000000, chain_id 1, and a
32-hex-character nonce encoding the 16 freshly drawn v4-UUID bytes;
distinct UUID draws give distinct nonces. (Stated for a client whose chain
id is already cached, since the eager unwrap_or argument evaluates
get_chain_id even under an override.) -/
theorem generate_transaction_fixed_example (sig : SigScheme) (net : Network)
    (rng rng2 : List Nat) (c : Client) (pv : PrivKey) (cid0 : Nat)
    (hc : c.chain_id = some cid0) (hlen : rng.length = 16)
    (hb : ∀ b ∈ rng, b < 256) (hb2 : ∀ b ∈ rng2, b < 256) :
    generate_transaction sig net rng c "6060" "" pv 100 (some 1) =
      (Except.ok (hexEncode (sig.sign
        { data := [96, 96], to_addr := "",
          nonce := hexEncode (uuidV4Bytes rng), valid_until_block := 188,
          quota := 1000000, chain_id := 1 } pv), c), []) ∧
    (hexEncode (uuidV4Bytes rng)).length = 32 ∧
    (uuidV4Bytes rng ≠ uuidV4Bytes rng2 →
      hexEncode (uuidV4Bytes rng) ≠ hexEncode (uuidV4Bytes rng2)) := by
  have hdec : hexDecode "6060" = some [96, 96] := by decide
  have hg := get_chain_id_cached_eq net c cid0 hc
  refine ⟨?_, ?_, ?_⟩
  · unfold generate_transaction
    rw [hdec, hg]
    rfl
  · rw [hexEncode_length, uuidV4Bytes_length, hlen]
  · intro hne he
    exact hne (hexEncode_inj _ _ (uuidV4Bytes_lt rng hb)
      (uuidV4Bytes_lt rng2 hb2) he)

/-- Witness for C7 at concrete randomness and a cached client. -/
theorem generate_transaction_fixed_example_witness :
    generate_transaction sigZero netNone rngA
        { id := 0, url := [], chain_id := some 9 } "6060" "" pvZero 100
        (some 1) =
      (Except.ok (hexEncode (sigZero.sign
        { data := [96, 96], to_addr := "",
          nonce := hexEncode (uuidV4Bytes rngA), valid_until_block := 188,
          quota := 1000000, chain_id := 1 } pvZero),
        { id := 0, url := [], chain_id := some 9 }), []) ∧
    (hexEncode (uuidV4Bytes rngA)).length = 32 ∧
    (uuidV4Bytes rngA ≠ uuidV4Bytes rngB →
      hexEncode (uuidV4Bytes rngA) ≠ hexEncode (uuidV4Bytes rngB)) :=
  generate_transaction_fixed_example sigZero netNone rngA rngB
    { id := 0, url := [], chain_id := some 9 } pvZero 9 rfl (by decide)
    (by decide) (by decide)

/-- Claim C8: a payload string that is not valid hex makes
generate_transaction fail with the MalformedInput error before anything
else happens: no network call and no signing attempt occur (the result does
not depend on sig or net, which are universally quantified and absent from
the right-hand side). -/
theorem generate_transaction_malformed_hex (sig : SigScheme) (net : Network)
    (rng : List Nat) (c : Client) (code address : String) (pv : PrivKey)
    (h : Nat) (cid : Option Nat) (hbad : hexDecode code = none) :
    generate_transaction sig net rng c code address pv h cid =
      (Except.error TxError.malformedInput, []) := by
  unfold generate_transaction
  rw [hbad]

/-- Witness for C8 at the concrete payload "zz". -/
theorem generate_transaction_malformed_hex_witness :
    generate_transaction sigZero netNone rngA Client.new "zz" "" pvZero 100
      none = (Except.error TxError.malformedInput, []) :=
  generate_transaction_malformed_hex sigZero netNone rngA Client.new "zz" ""
    pvZero 100 none (by decide)
